import Mathlib

/-!
Shallow embedding of the rendering core of the repository
(`src/src/gfx.rs` and `src/src/main.rs`): a minimal wgpu/winit program
that draws a rotating colored quad.  GPU handles are modelled by the
descriptor data the Rust code passes to wgpu; the per-frame `render`
call is modelled as the ordered list of GPU commands it issues.
Wall-clock instants and 32-bit float payloads are modelled over `ℚ`
(all geometry and color literals in the source are exactly
representable; monotonicity of the elapsed-seconds conversion is
preserved by this modelling).
-/

namespace Gfx

/-- `wgpu::TextureFormat` (only the surface-capability formats matter here). -/
inductive TextureFormat
  | Bgra8UnormSrgb
  | Bgra8Unorm
  | Rgba8UnormSrgb
  | Rgba8Unorm
  deriving DecidableEq, Repr

/-- `wgpu::TextureUsages`, restricted to the flags the program can set. -/
structure TextureUsages where
  renderAttachment : Bool
  copySrc : Bool
  copyDst : Bool
  deriving DecidableEq, Repr

/-- `wgpu::PresentMode`. -/
inductive PresentMode
  | Fifo
  | Immediate
  | Mailbox
  deriving DecidableEq, Repr

/-- `wgpu::CompositeAlphaMode` (the code uses `Auto`). -/
inductive CompositeAlphaMode
  | Auto
  | Inherit
  | PreMultiplied
  deriving DecidableEq, Repr

/-- `wgpu::SurfaceConfiguration`, as built in `State::new`. -/
structure SurfaceConfiguration where
  usage : TextureUsages
  format : TextureFormat
  width : Nat
  height : Nat
  presentMode : PresentMode
  alphaMode : CompositeAlphaMode
  viewFormats : List TextureFormat
  desiredMaximumFrameLatency : Nat
  deriving DecidableEq, Repr

/-- One interleaved vertex of the quad: 2D position then RGB color,
five `f32` fields, matching the flat `vertices` array in `State::new`. -/
structure Vertex where
  x : ℚ
  y : ℚ
  r : ℚ
  g : ℚ
  b : ℚ
  deriving DecidableEq, Repr

/-- Byte size of an `f32`. -/
def f32Size : Nat := 4

/-- The `vertices` array of `State::new`: six vertices, two triangles. -/
def vertices : List Vertex :=
  [ ⟨-(1/2), -(1/2), 1, 0, 0⟩,   -- bottom-left, red
    ⟨1/2, -(1/2), 0, 1, 0⟩,      -- bottom-right, green
    ⟨1/2, 1/2, 0, 0, 1⟩,         -- top-right, blue
    ⟨-(1/2), -(1/2), 1, 0, 0⟩,   -- bottom-left, red (repeated)
    ⟨1/2, 1/2, 0, 0, 1⟩,         -- top-right, blue (repeated)
    ⟨-(1/2), 1/2, 1, 1, 0⟩ ]     -- top-left, yellow

/-- The `AngleUniform` struct: an `f32` angle plus three `f32` of padding. -/
structure AngleUniform where
  angle : ℚ
  pad0 : ℚ
  pad1 : ℚ
  pad2 : ℚ
  deriving DecidableEq, Repr

/-- `std::mem::size_of::<AngleUniform>()`: four `f32` fields. -/
def AngleUniform.byteSize : Nat := 4 * f32Size

/-- `wgpu::BufferUsages`, restricted to the flags the program sets. -/
structure BufferUsages where
  vertex : Bool
  uniform : Bool
  copyDst : Bool
  deriving DecidableEq, Repr

/-- A GPU buffer created with `create_buffer_init`, keeping its label,
initial contents and usage flags. -/
structure Buffer (α : Type) where
  label : String
  contents : α
  usage : BufferUsages
  deriving DecidableEq, Repr

/-- `wgpu::ShaderStages` visibility flags. -/
structure ShaderStages where
  vertex : Bool
  fragment : Bool
  compute : Bool
  deriving DecidableEq, Repr

/-- `wgpu::BufferBindingType`. -/
inductive BufferBindingType
  | Uniform
  | Storage
  deriving DecidableEq, Repr

/-- `wgpu::BindingType`, restricted to buffer bindings. -/
inductive BindingType
  | Buffer (ty : BufferBindingType) (hasDynamicOffset : Bool)
      (minBindingSize : Option Nat)
  deriving DecidableEq, Repr

/-- One entry of a `wgpu::BindGroupLayoutDescriptor`. -/
structure BindGroupLayoutEntry where
  binding : Nat
  visibility : ShaderStages
  ty : BindingType
  count : Option Nat
  deriving DecidableEq, Repr

/-- Identifies the two buffers the program owns. -/
inductive BufferId
  | vertex
  | angle
  deriving DecidableEq, Repr

/-- One entry of a `wgpu::BindGroupDescriptor`: `as_entire_binding()` of
one of the program's buffers. -/
structure BindGroupEntry where
  binding : Nat
  resource : BufferId
  deriving DecidableEq, Repr

/-- `wgpu::VertexFormat`, restricted to the two used formats. -/
inductive VertexFormat
  | Float32x2
  | Float32x3
  deriving DecidableEq, Repr

/-- `wgpu::VertexAttribute`. -/
structure VertexAttribute where
  offset : Nat
  shaderLocation : Nat
  format : VertexFormat
  deriving DecidableEq, Repr

/-- `wgpu::VertexStepMode`. -/
inductive VertexStepMode
  | Vertex
  | Instance
  deriving DecidableEq, Repr

/-- `wgpu::VertexBufferLayout`. -/
structure VertexBufferLayout where
  arrayStride : Nat
  stepMode : VertexStepMode
  attributes : List VertexAttribute
  deriving DecidableEq, Repr

/-- `wgpu::PrimitiveTopology`. -/
inductive PrimitiveTopology
  | PointList
  | LineList
  | LineStrip
  | TriangleList
  | TriangleStrip
  deriving DecidableEq, Repr

/-- `wgpu::FrontFace`: which winding order counts as front-facing. -/
inductive FrontFace
  | Ccw
  | Cw
  deriving DecidableEq, Repr

/-- `wgpu::Face`. -/
inductive Face
  | Front
  | Back
  deriving DecidableEq, Repr

/-- `wgpu::PolygonMode`. -/
inductive PolygonMode
  | Fill
  | Line
  | Point
  deriving DecidableEq, Repr

/-- `wgpu::PrimitiveState`, as built in `State::new`. -/
structure PrimitiveState where
  topology : PrimitiveTopology
  stripIndexFormat : Option Unit
  frontFace : FrontFace
  cullMode : Option Face
  unclippedDepth : Bool
  polygonMode : PolygonMode
  conservative : Bool
  deriving DecidableEq, Repr

/-- `wgpu::BlendState`, restricted to the used `REPLACE` constant. -/
inductive BlendState
  | Replace
  deriving DecidableEq, Repr

/-- `wgpu::ColorWrites`, restricted to the used `ALL` constant. -/
inductive ColorWrites
  | All
  deriving DecidableEq, Repr

/-- `wgpu::ColorTargetState`. -/
structure ColorTargetState where
  format : TextureFormat
  blend : Option BlendState
  writeMask : ColorWrites
  deriving DecidableEq, Repr

/-- The data of the `wgpu::RenderPipelineDescriptor` built in `State::new`
that the claims are about: vertex buffer layouts, fragment color targets
and primitive state. -/
structure RenderPipelineDesc where
  vertexBuffers : List VertexBufferLayout
  targets : List ColorTargetState
  primitive : PrimitiveState
  deriving DecidableEq, Repr

/-- The render-pipeline descriptor of `State::new` as a function of the
surface's configured format (the only input it depends on). -/
def renderPipelineDesc (format : TextureFormat) : RenderPipelineDesc :=
  { vertexBuffers :=
      [ { arrayStride := 5 * f32Size
          stepMode := VertexStepMode.Vertex
          attributes :=
            [ { offset := 0
                shaderLocation := 0
                format := VertexFormat.Float32x2 },
              { offset := 2 * f32Size
                shaderLocation := 1
                format := VertexFormat.Float32x3 } ] } ]
    targets :=
      [ { format := format
          blend := some BlendState.Replace
          writeMask := ColorWrites.All } ]
    primitive :=
      { topology := PrimitiveTopology.TriangleList
        stripIndexFormat := none
        frontFace := FrontFace.Ccw
        cullMode := some Face.Back
        unclippedDepth := false
        polygonMode := PolygonMode.Fill
        conservative := false } }

/-- The `State` struct of `gfx.rs`: the resource descriptors it owns plus
its creation instant (`start_time`). -/
structure State where
  config : SurfaceConfiguration
  renderPipeline : RenderPipelineDesc
  vertexBuffer : Buffer (List Vertex)
  angleBuffer : Buffer AngleUniform
  angleBindGroupLayout : List BindGroupLayoutEntry
  angleBindGroup : List BindGroupEntry
  startTime : ℚ
  deriving DecidableEq, Repr

/-- The body of `State::new` once the adapter and device requests have
succeeded and the surface reported `f` as its first supported format,
for a window of inner size `w × h`, at creation instant `now`. -/
def mkState (f : TextureFormat) (w h : Nat) (now : ℚ) : State :=
  { config :=
      { usage := { renderAttachment := true, copySrc := false, copyDst := false }
        format := f
        width := w
        height := h
        presentMode := PresentMode.Fifo
        alphaMode := CompositeAlphaMode.Auto
        viewFormats := []
        desiredMaximumFrameLatency := 2 }
    renderPipeline := renderPipelineDesc f
    vertexBuffer :=
      { label := "Vertex Buffer"
        contents := vertices
        usage := { vertex := true, uniform := false, copyDst := false } }
    angleBuffer :=
      { label := "Angle UBO"
        contents := { angle := 0, pad0 := 0, pad1 := 0, pad2 := 0 }
        usage := { vertex := false, uniform := true, copyDst := true } }
    angleBindGroupLayout :=
      [ { binding := 0
          visibility := { vertex := true, fragment := false, compute := false }
          ty := BindingType.Buffer BufferBindingType.Uniform false
                  (some AngleUniform.byteSize)
          count := none } ]
    angleBindGroup := [ { binding := 0, resource := BufferId.angle } ]
    startTime := now }

/-- `State::new`, keyed on the surface capability format list: the Rust
code indexes `formats[0]`, which panics on an empty list (modelled as
`none`); otherwise the first reported format is chosen with no
preference logic. -/
def State.new (surfaceFormats : List TextureFormat) (w h : Nat) (now : ℚ) :
    Option State :=
  match surfaceFormats with
  | [] => none
  | f :: _ => some (mkState f w h now)

/-- `wgpu::SurfaceError`: the error type of `get_current_texture`. -/
inductive SurfaceError
  | Timeout
  | Outdated
  | Lost
  | OutOfMemory
  | Other
  deriving DecidableEq, Repr

/-- One GPU command issued by `State::render`, in program order. -/
inductive GpuOp
  | writeBuffer (buffer : BufferId) (offset : Nat) (data : AngleUniform)
  | beginRenderPass (r g b a : ℚ)
  | setPipeline
  | setBindGroup (slot : Nat)
  | setVertexBuffer (slot : Nat)
  | draw (vertexStart vertexEnd instanceStart instanceEnd : Nat)
  | endRenderPass
  | submit
  | present
  deriving DecidableEq, Repr

/-- The commands `State::render` issues on its success path, at wall-clock
instant `now`: `start_time.elapsed()` is `now - startTime` under the
monotonic-clock reading, the uniform is overwritten with it, then a
single pass clears to (0.1, 0.2, 0.3, 1.0), binds pipeline / bind group
slot 0 / vertex buffer slot 0, draws vertices `0..6` as instances
`0..1` (no index buffer is ever bound), and the commands are submitted
and the frame presented. -/
def State.successOps (s : State) (now : ℚ) : List GpuOp :=
  let t := now - s.startTime
  [ GpuOp.writeBuffer BufferId.angle 0 { angle := t, pad0 := 0, pad1 := 0, pad2 := 0 },
    GpuOp.beginRenderPass (1/10) (2/10) (3/10) 1,
    GpuOp.setPipeline,
    GpuOp.setBindGroup 0,
    GpuOp.setVertexBuffer 0,
    GpuOp.draw 0 6 0 1,
    GpuOp.endRenderPass,
    GpuOp.submit,
    GpuOp.present ]

/-- `State::render`: `get_current_texture()?` propagates a surface error
before any other effect; on success the fixed command sequence runs. -/
def State.render (s : State) (acquire : Except SurfaceError Unit) (now : ℚ) :
    Except SurfaceError (List GpuOp) :=
  match acquire with
  | Except.error e => Except.error e
  | Except.ok _ => Except.ok (s.successOps now)

/-- The angle values written to a buffer by a command sequence. -/
def angleWrites (ops : List GpuOp) : List ℚ :=
  ops.filterMap fun op =>
    match op with
    | GpuOp.writeBuffer BufferId.angle _ u => some u.angle
    | _ => none

/-- Whether a command writes to buffer `b`. -/
def GpuOp.writesTo (op : GpuOp) (b : BufferId) : Bool :=
  match op with
  | GpuOp.writeBuffer b' _ _ => b' == b
  | _ => false

/-- Whether a command is a queue submission. -/
def GpuOp.isSubmit : GpuOp → Bool
  | GpuOp.submit => true
  | _ => false

/-- Whether a command is a surface present. -/
def GpuOp.isPresent : GpuOp → Bool
  | GpuOp.present => true
  | _ => false

/-- 2D cross product of the vectors `(ux, uy)` and `(vx, vy)`. -/
def cross2 (ux uy vx vy : ℚ) : ℚ := ux * vy - uy * vx

/-- The position of the `i`-th vertex of the quad geometry. -/
def vertexPos (i : Nat) : ℚ × ℚ :=
  ((vertices.getD i ⟨0, 0, 0, 0, 0⟩).x, (vertices.getD i ⟨0, 0, 0, 0, 0⟩).y)

/-- Triangle `a b c` is wound counter-clockwise (positive signed area). -/
def ccwWound (a b c : ℚ × ℚ) : Prop :=
  0 < cross2 (b.1 - a.1) (b.2 - a.2) (c.1 - a.1) (c.2 - a.2)

/-- `p` lies in the (counter-clockwise) triangle `a b c`: it is on the
left of each directed edge. -/
def inTriangle (a b c p : ℚ × ℚ) : Prop :=
  0 ≤ cross2 (b.1 - a.1) (b.2 - a.2) (p.1 - a.1) (p.2 - a.2) ∧
  0 ≤ cross2 (c.1 - b.1) (c.2 - b.2) (p.1 - b.1) (p.2 - b.2) ∧
  0 ≤ cross2 (a.1 - c.1) (a.2 - c.2) (p.1 - c.1) (p.2 - c.2)

/-- `p` lies in the axis-aligned quad spanning (-0.5, -0.5) to (0.5, 0.5). -/
def inQuad (p : ℚ × ℚ) : Prop :=
  -(1/2) ≤ p.1 ∧ p.1 ≤ 1/2 ∧ -(1/2) ≤ p.2 ∧ p.2 ≤ 1/2

/-- Modelled from the spec: the WGSL vertex-shader transform of
`shader.wgsl`.  The shader source is referenced by
`include_str!("shader.wgsl")` but the file is not part of the repository
snapshot; per the spec, the vertex stage rotates the input position
about the origin by the bound angle. -/
noncomputable def vsRotate (θ : ℝ) (p : ℝ × ℝ) : ℝ × ℝ :=
  (p.1 * Real.cos θ - p.2 * Real.sin θ, p.1 * Real.sin θ + p.2 * Real.cos θ)

/-- `winit::event::WindowEvent`, restricted to the arms `main.rs` matches. -/
inductive WindowEvent
  | CloseRequested
  | RedrawRequested
  | Other
  deriving DecidableEq, Repr

/-- The observable outcome of one `App::window_event` dispatch. -/
inductive HandlerOutcome
  | Continue
  | ExitLoop
  | Panicked
  deriving DecidableEq, Repr

/-- `App::window_event` of `main.rs`: on `RedrawRequested` with an
initialized state it calls `state.render().unwrap()` — a surface error
from `render` panics the process. -/
def App.windowEvent (st : Option State) (event : WindowEvent)
    (acquire : Except SurfaceError Unit) (now : ℚ) : HandlerOutcome :=
  match event with
  | WindowEvent.CloseRequested => HandlerOutcome.ExitLoop
  | WindowEvent.RedrawRequested =>
    match st with
    | some s =>
      match s.render acquire now with
      | Except.ok _ => HandlerOutcome.Continue
      | Except.error _ => HandlerOutcome.Panicked
    | none => HandlerOutcome.Continue
  | WindowEvent.Other => HandlerOutcome.Continue

/-- C1: across two `State::render` calls on the same state, the angle
value written into the Time Uniform at the later wall-clock instant is
at least the value written at the earlier instant — each frame writes
exactly one angle, namely the elapsed time since the state's creation,
which never decreases under the monotonic clock. -/
theorem angle_write_monotone (s : State) (t₁ t₂ : ℚ) (h : t₁ ≤ t₂) :
    ∃ a₁ a₂, angleWrites (s.successOps t₁) = [a₁] ∧
      angleWrites (s.successOps t₂) = [a₂] ∧ a₁ ≤ a₂ :=
  ⟨t₁ - s.startTime, t₂ - s.startTime, rfl, rfl, by linarith⟩

/-- Witness for C1 at a concrete state and instants 1 ≤ 2. -/
theorem angle_write_monotone_witness :
    ∃ a₁ a₂,
      angleWrites ((mkState TextureFormat.Bgra8UnormSrgb 800 600 0).successOps 1) = [a₁] ∧
      angleWrites ((mkState TextureFormat.Bgra8UnormSrgb 800 600 0).successOps 2) = [a₂] ∧
      a₁ ≤ a₂ :=
  angle_write_monotone (mkState TextureFormat.Bgra8UnormSrgb 800 600 0) 1 2 (by norm_num)

/-- C2: the vertex buffer holds exactly 6 position+color vertices forming
two counter-clockwise triangles that share the edge from vertex 0 to
vertex 2, whose union is exactly the axis-aligned quad from (-0.5, -0.5)
to (0.5, 0.5); the buffer is created with vertex-only usage and no
`render` command ever writes to it. -/
theorem quad_geometry :
    vertices.length = 6 ∧
    ccwWound (vertexPos 0) (vertexPos 1) (vertexPos 2) ∧
    ccwWound (vertexPos 3) (vertexPos 4) (vertexPos 5) ∧
    vertexPos 3 = vertexPos 0 ∧ vertexPos 4 = vertexPos 2 ∧
    (∀ p : ℚ × ℚ,
      (inTriangle (vertexPos 0) (vertexPos 1) (vertexPos 2) p ∨
       inTriangle (vertexPos 3) (vertexPos 4) (vertexPos 5) p) ↔ inQuad p) ∧
    (∀ f w h now, (mkState f w h now).vertexBuffer.contents = vertices ∧
      (mkState f w h now).vertexBuffer.usage =
        { vertex := true, uniform := false, copyDst := false }) ∧
    (∀ (s : State) (now : ℚ),
      (s.successOps now).countP (fun op => op.writesTo BufferId.vertex) = 0) := by
  refine ⟨rfl, by norm_num [ccwWound, cross2, vertexPos, vertices],
    by norm_num [ccwWound, cross2, vertexPos, vertices], rfl, rfl, ?_,
    fun f w h now => ⟨rfl, rfl⟩, fun s now => rfl⟩
  rintro ⟨x, y⟩
  simp only [inTriangle, inQuad, cross2, vertexPos, vertices, List.getD,
    List.get?]
  norm_num
  constructor
  · rintro (⟨h1, h2, h3⟩ | ⟨h1, h2, h3⟩) <;>
      exact ⟨by linarith, by linarith, by linarith, by linarith⟩
  · rintro ⟨h1, h2, h3, h4⟩
    rcases le_total y x with hxy | hxy
    · exact Or.inl ⟨by linarith, by linarith, by linarith⟩
    · exact Or.inr ⟨by linarith, by linarith, by linarith⟩

/-- C3 counterexample: the pipeline's front-facing winding is not
clockwise (the source sets `front_face: wgpu::FrontFace::Ccw`). -/
theorem pipeline_front_face_not_cw :
    ¬ (renderPipelineDesc TextureFormat.Bgra8UnormSrgb).primitive.frontFace
      = FrontFace.Cw := by
  decide

/-- C3 (amended): the pipeline uses triangle-list topology with back-face
culling and a counter-clockwise front-facing winding convention. -/
theorem pipeline_primitive_state (f : TextureFormat) :
    (renderPipelineDesc f).primitive.topology = PrimitiveTopology.TriangleList ∧
    (renderPipelineDesc f).primitive.cullMode = some Face.Back ∧
    (renderPipelineDesc f).primitive.frontFace = FrontFace.Ccw :=
  ⟨rfl, rfl, rfl⟩

/-- C4: `State::render` propagates exactly the surface-acquisition error,
performing no command at all in that case, and on successful acquisition
it issues exactly one queue submission and exactly one present. -/
theorem render_error_iff (s : State) (now : ℚ) (e : SurfaceError) :
    State.render s (Except.error e) now = Except.error e ∧
    State.render s (Except.ok ()) now = Except.ok (s.successOps now) ∧
    (s.successOps now).countP GpuOp.isSubmit = 1 ∧
    (s.successOps now).countP GpuOp.isPresent = 1 :=
  ⟨rfl, rfl, rfl, rfl⟩

/-- C5: on the success path `State::render` issues, in order: the uniform
overwrite, one render pass clearing to (0.1, 0.2, 0.3, 1.0) that binds
the pipeline, the bind group at slot 0 and the vertex buffer and draws
vertices 0..6 as one instance with no indexing, then one submit and
finally one present. -/
theorem render_success_trace (s : State) (now : ℚ) :
    State.render s (Except.ok ()) now =
      Except.ok
        [ GpuOp.writeBuffer BufferId.angle 0
            { angle := now - s.startTime, pad0 := 0, pad1 := 0, pad2 := 0 },
          GpuOp.beginRenderPass (1/10) (2/10) (3/10) 1,
          GpuOp.setPipeline,
          GpuOp.setBindGroup 0,
          GpuOp.setVertexBuffer 0,
          GpuOp.draw 0 6 0 1,
          GpuOp.endRenderPass,
          GpuOp.submit,
          GpuOp.present ] := rfl

/-- C6: `State::new` configures the surface with render-attachment usage,
the first reported capability format, the window's pixel dimensions,
FIFO present mode and a maximum frame latency of 2. -/
theorem surface_config_spec (f : TextureFormat) (rest : List TextureFormat)
    (w h : Nat) (now : ℚ) (s : State)
    (hs : State.new (f :: rest) w h now = some s) :
    s.config.usage = { renderAttachment := true, copySrc := false, copyDst := false } ∧
    s.config.format = f ∧
    s.config.width = w ∧ s.config.height = h ∧
    s.config.presentMode = PresentMode.Fifo ∧
    s.config.desiredMaximumFrameLatency = 2 := by
  cases Option.some.inj hs
  exact ⟨rfl, rfl, rfl, rfl, rfl, rfl⟩

/-- Witness for C6 at a concrete format list and an 800×600 window. -/
theorem surface_config_spec_witness :
    (mkState TextureFormat.Bgra8UnormSrgb 800 600 0).config.usage
      = { renderAttachment := true, copySrc := false, copyDst := false } ∧
    (mkState TextureFormat.Bgra8UnormSrgb 800 600 0).config.format
      = TextureFormat.Bgra8UnormSrgb ∧
    (mkState TextureFormat.Bgra8UnormSrgb 800 600 0).config.width = 800 ∧
    (mkState TextureFormat.Bgra8UnormSrgb 800 600 0).config.height = 600 ∧
    (mkState TextureFormat.Bgra8UnormSrgb 800 600 0).config.presentMode
      = PresentMode.Fifo ∧
    (mkState TextureFormat.Bgra8UnormSrgb 800 600 0).config.desiredMaximumFrameLatency
      = 2 :=
  surface_config_spec TextureFormat.Bgra8UnormSrgb [] 800 600 0 _ rfl

/-- C7: two runs of `State::new` on identical inputs produce equal
pipelines; the pipeline declares a single vertex buffer of stride 20
bytes with a 2-float position at offset 0 and a 3-float color at offset
8, and its sole color target has the surface's configured format. -/
theorem pipeline_layout_deterministic (f : TextureFormat)
    (rest : List TextureFormat) (w h : Nat) (now : ℚ) (s₁ s₂ : State)
    (h₁ : State.new (f :: rest) w h now = some s₁)
    (h₂ : State.new (f :: rest) w h now = some s₂) :
    s₁.renderPipeline = s₂.renderPipeline ∧
    s₁.renderPipeline.vertexBuffers =
      [ { arrayStride := 20
          stepMode := VertexStepMode.Vertex
          attributes :=
            [ { offset := 0, shaderLocation := 0, format := VertexFormat.Float32x2 },
              { offset := 8, shaderLocation := 1, format := VertexFormat.Float32x3 } ] } ] ∧
    s₁.renderPipeline.targets.map ColorTargetState.format = [s₁.config.format] := by
  cases Option.some.inj h₁
  cases Option.some.inj h₂
  exact ⟨rfl, rfl, rfl⟩

/-- Witness for C7 at a concrete format and an 800×600 window. -/
theorem pipeline_layout_deterministic_witness :
    (mkState TextureFormat.Bgra8UnormSrgb 800 600 0).renderPipeline
      = (mkState TextureFormat.Bgra8UnormSrgb 800 600 0).renderPipeline ∧
    (mkState TextureFormat.Bgra8UnormSrgb 800 600 0).renderPipeline.vertexBuffers =
      [ { arrayStride := 20
          stepMode := VertexStepMode.Vertex
          attributes :=
            [ { offset := 0, shaderLocation := 0, format := VertexFormat.Float32x2 },
              { offset := 8, shaderLocation := 1, format := VertexFormat.Float32x3 } ] } ] ∧
    (mkState TextureFormat.Bgra8UnormSrgb 800 600 0).renderPipeline.targets.map
      ColorTargetState.format
      = [(mkState TextureFormat.Bgra8UnormSrgb 800 600 0).config.format] :=
  pipeline_layout_deterministic TextureFormat.Bgra8UnormSrgb [] 800 600 0 _ _ rfl rfl

/-- C8: the Time Uniform buffer starts at angle 0 with a 16-byte payload
(a multiple of 16), carries uniform usage, and is wired to binding slot
0 of a layout visible only to the vertex stage. -/
theorem angle_uniform_binding (f : TextureFormat) (rest : List TextureFormat)
    (w h : Nat) (now : ℚ) (s : State)
    (hs : State.new (f :: rest) w h now = some s) :
    s.angleBuffer.contents = { angle := 0, pad0 := 0, pad1 := 0, pad2 := 0 } ∧
    AngleUniform.byteSize = 16 ∧
    AngleUniform.byteSize % 16 = 0 ∧
    s.angleBuffer.usage = { vertex := false, uniform := true, copyDst := true } ∧
    s.angleBindGroupLayout =
      [ { binding := 0
          visibility := { vertex := true, fragment := false, compute := false }
          ty := BindingType.Buffer BufferBindingType.Uniform false
                  (some AngleUniform.byteSize)
          count := none } ] ∧
    s.angleBindGroup = [ { binding := 0, resource := BufferId.angle } ] := by
  cases Option.some.inj hs
  exact ⟨rfl, rfl, rfl, rfl, rfl, rfl⟩

/-- Witness for C8 at a concrete format and an 800×600 window. -/
theorem angle_uniform_binding_witness :
    (mkState TextureFormat.Bgra8UnormSrgb 800 600 0).angleBuffer.contents
      = { angle := 0, pad0 := 0, pad1 := 0, pad2 := 0 } ∧
    AngleUniform.byteSize = 16 ∧
    AngleUniform.byteSize % 16 = 0 ∧
    (mkState TextureFormat.Bgra8UnormSrgb 800 600 0).angleBuffer.usage
      = { vertex := false, uniform := true, copyDst := true } ∧
    (mkState TextureFormat.Bgra8UnormSrgb 800 600 0).angleBindGroupLayout =
      [ { binding := 0
          visibility := { vertex := true, fragment := false, compute := false }
          ty := BindingType.Buffer BufferBindingType.Uniform false
                  (some AngleUniform.byteSize)
          count := none } ] ∧
    (mkState TextureFormat.Bgra8UnormSrgb 800 600 0).angleBindGroup
      = [ { binding := 0, resource := BufferId.angle } ] :=
  angle_uniform_binding TextureFormat.Bgra8UnormSrgb [] 800 600 0 _ rfl

/-- C9 (spec-modelled shader): the vertex-shader rotation is the identity
at angle 0, and at any angle θ it applies the rotation matrix
x' = x·cos θ − y·sin θ, y' = x·sin θ + y·cos θ. -/
theorem shader_rotation (θ : ℝ) (p : ℝ × ℝ) :
    vsRotate 0 p = p ∧
    vsRotate θ p = (p.1 * Real.cos θ - p.2 * Real.sin θ,
                    p.1 * Real.sin θ + p.2 * Real.cos θ) := by
  obtain ⟨x, y⟩ := p
  constructor
  · simp [vsRotate]
  · rfl

/-- C10: the redraw handler of `main.rs` unwraps `State::render`'s
result, so a surface error panics the process while a successful render
continues the loop. -/
theorem redraw_unwraps_render (s : State) (now : ℚ) (e : SurfaceError) :
    App.windowEvent (some s) WindowEvent.RedrawRequested (Except.error e) now
      = HandlerOutcome.Panicked ∧
    App.windowEvent (some s) WindowEvent.RedrawRequested (Except.ok ()) now
      = HandlerOutcome.Continue :=
  ⟨rfl, rfl⟩

end Gfx
